import Mathlib

/-!
Verification of the query-execution and result-materialization pipeline of
athena-express (src/lib/helpers.js), as a shallow embedding in Lean.

External collaborators — the query engine (Athena), the object store (S3),
the csv parser, and the JavaScript runtime primitives JSON.parse, Number and
BigInt — are modelled explicitly; the functions of helpers.js themselves are
translated one-to-one.  Machine floating point is abstracted by exact
rationals plus explicit NaN/Infinity markers: no claim below depends on
rounding.
-/

set_option maxHeartbeats 1000000
set_option maxRecDepth 8000

/-- A JavaScript JSON value, as produced by the runtime's JSON.parse. -/
inductive JVal where
  | jnull
  | jbool (b : Bool)
  | jnum (q : ℚ)
  | jstr (s : String)
  | jarr (elems : List JVal)
  | jobj (fields : List (String × JVal))

/-- A JavaScript number, as produced by the runtime's Number conversion:
either NaN, a signed infinity, or a finite value (modelled as an exact
rational; IEEE rounding is abstracted away). -/
inductive JSNum where
  | nan
  | posInf
  | negInf
  | val (q : ℚ)
deriving DecidableEq

/-- Drop leading JSON whitespace characters. -/
def dropWs : List Char → List Char
  | c :: rest =>
    if c = ' ' ∨ c = '\t' ∨ c = '\n' ∨ c = '\r' then dropWs rest else c :: rest
  | [] => []

/-- Numeric value of a decimal digit string (most significant first). -/
def digitsToNat (ds : List Char) : Nat :=
  ds.foldl (fun acc c => acc * 10 + (c.toNat - 48)) 0

/-- One or more decimal digits, returning them and the remaining input. -/
def parseDigits (cs : List Char) : Option (List Char × List Char) :=
  let ds := cs.takeWhile Char.isDigit
  if ds.isEmpty then none else some (ds, cs.dropWhile Char.isDigit)

/-- JSON integer part: a single 0, or a nonzero digit followed by digits
(leading zeros are a syntax error in JSON). -/
def parseJIntPart : List Char → Option (List Char × List Char)
  | '0' :: r =>
    if (match r with | c :: _ => c.isDigit | [] => false) then none
    else some (['0'], r)
  | cs => parseDigits cs

/-- JSON fraction part: a dot followed by digits, or nothing. -/
def parseJFrac : List Char → Option (List Char × List Char)
  | '.' :: r => parseDigits r
  | cs => some ([], cs)

/-- Exponent part: e/E, an optional sign and digits; absent exponent is 0. -/
def parseJExp : List Char → Option (Int × List Char)
  | c :: r =>
    if c = 'e' ∨ c = 'E' then
      match r with
      | '+' :: r2 => (parseDigits r2).map (fun p => ((digitsToNat p.1 : Int), p.2))
      | '-' :: r2 => (parseDigits r2).map (fun p => (-(digitsToNat p.1 : Int), p.2))
      | _ => (parseDigits r).map (fun p => ((digitsToNat p.1 : Int), p.2))
    else some (0, c :: r)
  | [] => some (0, [])

/-- Exact value of a sign/integer-digits/fraction-digits/exponent split. -/
def ratOfParts (neg : Bool) (intDs fracDs : List Char) (e : Int) : ℚ :=
  let base : ℚ := (digitsToNat intDs : ℚ) + (digitsToNat fracDs : ℚ) / ((10 : ℚ) ^ fracDs.length)
  let scaled := base * (10 : ℚ) ^ e
  if neg then -scaled else scaled

/-- A JSON number literal, returning its value and the remaining input. -/
def parseJNumber (cs : List Char) : Option (ℚ × List Char) := do
  let (neg, cs1) := match cs with
    | '-' :: r => (true, r)
    | _ => (false, cs)
  let (intDs, r1) ← parseJIntPart cs1
  let (fracDs, r2) ← parseJFrac r1
  let (e, r3) ← parseJExp r2
  some (ratOfParts neg intDs fracDs e, r3)

/-- Value of a hexadecimal digit, if any. -/
def hexVal (c : Char) : Option Nat :=
  if c.isDigit then some (c.toNat - 48)
  else if 'a' ≤ c ∧ c ≤ 'f' then some (c.toNat - 87)
  else if 'A' ≤ c ∧ c ≤ 'F' then some (c.toNat - 55)
  else none

/-- Body of a JSON string (the part after the opening quote), including the
standard escape sequences. -/
def parseJString : Nat → List Char → Option (String × List Char)
  | 0, _ => none
  | fuel+1, cs =>
    match cs with
    | '"' :: rest => some ("", rest)
    | '\\' :: c :: rest =>
      let esc : Option (Char × List Char) :=
        if c = '"' then some ('"', rest)
        else if c = '\\' then some ('\\', rest)
        else if c = '/' then some ('/', rest)
        else if c = 'b' then some (Char.ofNat 8, rest)
        else if c = 'f' then some (Char.ofNat 12, rest)
        else if c = 'n' then some ('\n', rest)
        else if c = 'r' then some ('\r', rest)
        else if c = 't' then some ('\t', rest)
        else if c = 'u' then
          match rest with
          | h1 :: h2 :: h3 :: h4 :: rest2 => do
            let a ← hexVal h1
            let b ← hexVal h2
            let c2 ← hexVal h3
            let d ← hexVal h4
            some (Char.ofNat (((a * 16 + b) * 16 + c2) * 16 + d), rest2)
          | _ => none
        else none
      match esc with
      | some (ch, rest2) =>
        (parseJString fuel rest2).map (fun p => (⟨ch :: p.1.data⟩, p.2))
      | none => none
    | c :: rest =>
      if c.toNat < 32 then none
      else (parseJString fuel rest).map (fun p => (⟨c :: p.1.data⟩, p.2))
    | [] => none

/-- One JSON value, returning it and the remaining input.  Arrays and objects
recurse by re-parsing their tail as a synthetic bracketed value, so the whole
parser is a single structural recursion on the fuel. -/
def parseJVal : Nat → List Char → Option (JVal × List Char)
  | 0, _ => none
  | fuel+1, cs =>
    match dropWs cs with
    | 't' :: 'r' :: 'u' :: 'e' :: rest => some (JVal.jbool true, rest)
    | 'f' :: 'a' :: 'l' :: 's' :: 'e' :: rest => some (JVal.jbool false, rest)
    | 'n' :: 'u' :: 'l' :: 'l' :: rest => some (JVal.jnull, rest)
    | '"' :: rest =>
      (parseJString (rest.length + 1) rest).map (fun p => (JVal.jstr p.1, p.2))
    | '[' :: rest =>
      (match dropWs rest with
       | ']' :: r2 => some (JVal.jarr [], r2)
       | cs2 => do
         let (v, r1) ← parseJVal fuel cs2
         match dropWs r1 with
         | ']' :: r2 => some (JVal.jarr [v], r2)
         | ',' :: r2 =>
           (match dropWs r2 with
            | ']' :: _ => none
            | _ => do
              let (tail, r3) ← parseJVal fuel ('[' :: r2)
              match tail with
              | JVal.jarr xs => some (JVal.jarr (v :: xs), r3)
              | _ => none)
         | _ => none)
    | '{' :: rest =>
      (match dropWs rest with
       | '}' :: r2 => some (JVal.jobj [], r2)
       | '"' :: r1 => do
         let (k, r2) ← parseJString (r1.length + 1) r1
         match dropWs r2 with
         | ':' :: r3 => do
           let (v, r4) ← parseJVal fuel r3
           match dropWs r4 with
           | '}' :: r5 => some (JVal.jobj [(k, v)], r5)
           | ',' :: r5 =>
             (match dropWs r5 with
              | '}' :: _ => none
              | _ => do
                let (tail, r6) ← parseJVal fuel ('{' :: r5)
                match tail with
                | JVal.jobj fs => some (JVal.jobj ((k, v) :: fs), r6)
                | _ => none)
           | _ => none
         | _ => none
       | _ => none)
    | cs2 => (parseJNumber cs2).map (fun p => (JVal.jnum p.1, p.2))

/-- Model of the JavaScript runtime's JSON.parse: none models a thrown
SyntaxError. -/
def jsonParse (s : String) : Option JVal :=
  match parseJVal (s.length + 1) s.data with
  | some (v, rest) => if dropWs rest = [] then some v else none
  | none => none

/-- JavaScript whitespace, as trimmed by Number and BigInt conversion. -/
def isJsWs (c : Char) : Bool :=
  c = ' ' || c = '\t' || c = '\n' || c = '\r' || c.toNat = 11 || c.toNat = 12 || c.toNat = 160

/-- Trim JavaScript whitespace from both ends. -/
def trimJs (cs : List Char) : List Char :=
  ((cs.dropWhile isJsWs).reverse.dropWhile isJsWs).reverse

/-- Digits of the given radix (radix at most 16), most significant first;
none when empty or when any character is not a digit of the radix. -/
def parseRadix (radix : Nat) (cs : List Char) : Option Nat :=
  if cs.isEmpty then none
  else cs.foldl (fun acc c => do
    let a ← acc
    let d ← hexVal c
    if d < radix then some (a * radix + d) else none) (some 0)

/-- A complete JavaScript decimal literal (sign, digits, optional fraction
and exponent); the whole input must be consumed. -/
def jsDecimalValue (cs : List Char) : Option ℚ :=
  let (neg, cs1) := match cs with
    | '-' :: r => (true, r)
    | '+' :: r => (false, r)
    | _ => (false, cs)
  let intDs := cs1.takeWhile Char.isDigit
  let r1 := cs1.dropWhile Char.isDigit
  let (fracDs, r2) := match r1 with
    | '.' :: r => (r.takeWhile Char.isDigit, r.dropWhile Char.isDigit)
    | _ => (([] : List Char), r1)
  if intDs.isEmpty ∧ fracDs.isEmpty then none
  else
    match parseJExp r2 with
    | some (e, []) => some (ratOfParts neg intDs fracDs e)
    | _ => none

/-- Model of the JavaScript Number conversion applied to a string, before the
final NaN fallback: none means no numeric literal was recognized. -/
def jsStringToNumberCore (s : String) : Option JSNum :=
  let cs := trimJs s.data
  match cs with
  | [] => some (JSNum.val 0)
  | '0' :: x :: rest =>
    if x = 'x' ∨ x = 'X' then (parseRadix 16 rest).map (fun n => JSNum.val (n : ℚ))
    else if x = 'o' ∨ x = 'O' then (parseRadix 8 rest).map (fun n => JSNum.val (n : ℚ))
    else if x = 'b' ∨ x = 'B' then (parseRadix 2 rest).map (fun n => JSNum.val (n : ℚ))
    else (jsDecimalValue cs).map JSNum.val
  | _ =>
    if cs = "Infinity".data ∨ cs = "+Infinity".data then some JSNum.posInf
    else if cs = "-Infinity".data then some JSNum.negInf
    else (jsDecimalValue cs).map JSNum.val

/-- Model of the JavaScript Number conversion applied to a string: an
unrecognized literal yields NaN (Number never throws on a string). -/
def jsNumberOfString (s : String) : JSNum :=
  (jsStringToNumberCore s).getD JSNum.nan

/-- Model of the JavaScript BigInt conversion applied to a string: none
models a thrown SyntaxError. -/
def bigIntParse (s : String) : Option Int :=
  let cs := trimJs s.data
  match cs with
  | [] => some 0
  | '0' :: x :: rest =>
    if x = 'x' ∨ x = 'X' then (parseRadix 16 rest).map Int.ofNat
    else if x = 'o' ∨ x = 'O' then (parseRadix 8 rest).map Int.ofNat
    else if x = 'b' ∨ x = 'B' then (parseRadix 2 rest).map Int.ofNat
    else (parseRadix 10 cs).map Int.ofNat
  | '-' :: rest => (parseRadix 10 rest).map (fun n => -(n : Int))
  | '+' :: rest => (parseRadix 10 rest).map Int.ofNat
  | _ => (parseRadix 10 cs).map Int.ofNat

/-- ASCII lowering of one character, as JavaScript toLowerCase acts on the
ASCII range (the tokens coerced by the materializer are ASCII). -/
def jsCharToLower (c : Char) : Char :=
  if 'A' ≤ c ∧ c ≤ 'Z' then Char.ofNat (c.toNat + 32) else c

/-- Model of JavaScript String.prototype.toLowerCase. -/
def jsToLower (s : String) : String :=
  ⟨s.data.map jsCharToLower⟩

/-- Model of JavaScript String.prototype.trim. -/
def jsTrim (s : String) : String :=
  ⟨trimJs s.data⟩

/-- Split on a separator character, keeping empty segments, as JavaScript
String.prototype.split with a one-character separator. -/
def splitOnCharAux (sep : Char) : List Char → List Char → List (List Char)
  | [], acc => [acc.reverse]
  | c :: rest, acc =>
    if c = sep then acc.reverse :: splitOnCharAux sep rest []
    else splitOnCharAux sep rest (c :: acc)

/-- Model of JavaScript String.prototype.split with a one-character
separator. -/
def jsSplit (sep : Char) (s : String) : List String :=
  (splitOnCharAux sep s.data []).map fun l => ⟨l⟩

/-- Model of JavaScript Array.prototype.join. -/
def joinWith (sep : String) : List String → String
  | [] => ""
  | [x] => x
  | x :: xs => x ++ sep ++ joinWith sep xs

/-- A typed cell value, as placed in a record by addDataType: JavaScript
null, a passthrough string, the result of JSON.parse (boolean columns), an
arbitrary-precision integer (bigint columns), or a number (numeric columns). -/
inductive TValue where
  | null
  | str (s : String)
  | json (j : JVal)
  | big (n : Int)
  | num (x : JSNum)

/-- A materialization fault: the JavaScript exception thrown while coercing a
cell (SyntaxError from JSON.parse resp. BigInt), carrying the offending cell
value. -/
inductive MErr where
  | malformedJson (v : String)
  | malformedBigInt (v : String)
deriving DecidableEq

/-- Whether an Except is a success. -/
def exceptIsOk : Except ε α → Bool
  | Except.ok _ => true
  | Except.error _ => false

/-- The switch statement of addDataType (helpers.js 214-234): coerce one
non-empty cell value by the column's declared type.  The type is the object
lookup dataTypes[key]: none models an undeclared column (undefined), which
falls to the default passthrough branch. -/
def coerceValue (ty : Option String) (v : String) : Except MErr TValue :=
  match ty with
  | some "varchar" => Except.ok (TValue.str v)
  | some "boolean" =>
    match jsonParse (jsToLower v) with
    | some j => Except.ok (TValue.json j)
    | none => Except.error (MErr.malformedJson v)
  | some "bigint" =>
    match bigIntParse v with
    | some n => Except.ok (TValue.big n)
    | none => Except.error (MErr.malformedBigInt v)
  | some "integer" | some "tinyint" | some "smallint" | some "int"
  | some "float" | some "double" => Except.ok (TValue.num (jsNumberOfString v))
  | _ => Except.ok (TValue.str v)

/-- addDataType (helpers.js 207-238).  The input object is an association
list in key-insertion order; a falsy (empty) value becomes null, otherwise
the value is coerced by the declared type.  A thrown coercion exception
aborts the whole call. -/
def addDataType : List (String × String) → List (String × String) → Except MErr (List (String × TValue))
  | [], _ => Except.ok []
  | (k, v) :: rest, dataTypes =>
    match (if v = "" then Except.ok TValue.null else coerceValue (dataTypes.lookup k) v) with
    | Except.error e => Except.error e
    | Except.ok tv =>
      match addDataType rest dataTypes with
      | Except.error e => Except.error e
      | Except.ok restOut => Except.ok ((k, tv) :: restOut)

/-- getDataTypes (helpers.js 172-185): builds the column-name-to-type object
by walking ColumnInfo backwards (while (columnInfoArrayLength--)), so the
object's key-insertion order is the reverse of the column order. -/
def getDataTypes (columnInfo : List (String × String)) : List (String × String) :=
  columnInfo.reverse

/-- The inner loop of cleanUpPaginatedDML (helpers.js 144-148): build the row
object from one engine row, pairing each present VarCharValue with the
column name of the same position; cells without VarCharValue are skipped. -/
def buildRowObject (columnNames : List String) (data : List (Option String)) : List (String × String) :=
  (columnNames.zip data).filterMap (fun p => p.2.map (fun v => (p.1, v)))

/-- The row loop of cleanUpPaginatedDML: materialize each engine row in
order; the first thrown coercion exception rejects the whole promise. -/
def cleanUpPaginatedRows : List (List (Option String)) → List String → List (String × String) → Except MErr (List (List (String × TValue)))
  | [], _, _ => Except.ok []
  | row :: rest, columnNames, dataTypes =>
    match addDataType (buildRowObject columnNames row) dataTypes with
    | Except.error e => Except.error e
    | Except.ok r0 =>
      match cleanUpPaginatedRows rest columnNames dataTypes with
      | Except.error e => Except.error e
      | Except.ok rs => Except.ok (r0 :: rs)

/-- cleanUpPaginatedDML (helpers.js 134-154): skip the first paginationFactor
rows, then materialize the remaining rows.  columnNames is
Object.keys(dataTypes).reverse(), i.e. the original column order. -/
def cleanUpPaginatedDML (rows : List (List (Option String))) (paginationFactor : Nat) (columnInfo : List (String × String)) : Except MErr (List (List (String × TValue))) :=
  let dataTypes := getDataTypes columnInfo
  let columnNames := (dataTypes.map Prod.fst).reverse
  cleanUpPaginatedRows (rows.drop paginationFactor) columnNames dataTypes

/-- The record loop of cleanUpDML (helpers.js 195-199): materialize each
parsed csv record in order; a thrown coercion exception rejects the whole
promise with no partial output. -/
def cleanUpDMLRecords : List (List (String × String)) → List (String × String) → Except MErr (List (List (String × TValue)))
  | [], _ => Except.ok []
  | r :: rest, dataTypes =>
    match addDataType r dataTypes with
    | Except.error e => Except.error e
    | Except.ok r0 =>
      match cleanUpDMLRecords rest dataTypes with
      | Except.error e => Except.error e
      | Except.ok rs => Except.ok (r0 :: rs)

/-- cleanUpDML (helpers.js 187-205).  The csv parse of the blob is external
(csvtojson); its output records are taken as input here. -/
def cleanUpDML (csvRecords : List (List (String × String))) (columnInfo : List (String × String)) : Except MErr (List (List (String × TValue))) :=
  cleanUpDMLRecords csvRecords (getDataTypes columnInfo)

/-- cleanUpNonDML (helpers.js 240-267): each line with an interior tab
becomes a key/value pair of its first two tab fields, other non-blank lines
become a ("row", line) pair; blank lines are dropped. -/
def cleanUpNonDML (lines : List String) : List (String × String) :=
  lines.filterMap (fun line =>
    match jsSplit '\t' line with
    | p0 :: p1 :: _ =>
      if p0 = "" then
        (if jsTrim line = "" then none else some ("row", jsTrim line))
      else some (jsTrim p0, jsTrim p1)
    | _ =>
      if jsTrim line = "" then none else some ("row", jsTrim line))

/-- getRawResultsFromS3 (helpers.js 156-170): each line of the blob, trimmed,
in original order. -/
def getRawResultsFromS3 (lines : List String) : List String :=
  lines.map jsTrim

/-- isCommonAthenaError (helpers.js 286-293). -/
def isCommonAthenaError (err : String) : Bool :=
  err == "TooManyRequestsException" || err == "ThrottlingException" ||
    err == "NetworkingError" || err == "UnknownEndpoint"

/-- The bucket/key pair handed to GetObjectCommand (helpers.js 78-81):
Bucket is s3Output.split("/")[2], Key joins the segments from index 3. -/
def s3ParamsOf (s3Output : String) : String × String :=
  let parts := jsSplit '/' s3Output
  (parts.getD 2 "", joinWith "/" (parts.drop 3))

/-- Written from the spec's words for comparison (spec section 6: "bucket/key
are derived by splitting the execution's reported output location on path
separators (first two segments → bucket, remainder → key)"). -/
def s3ParamsClaim (s3Output : String) : String × String :=
  let parts := jsSplit '/' s3Output
  (joinWith "/" (parts.take 2), joinWith "/" (parts.drop 2))

/-- One submission attempt's outcome, as seen by startQueryExecution: the
engine either returns a QueryExecutionId or throws an error with a code. -/
inductive SubmitEvent where
  | ok (id : String)
  | err (code : String)
deriving DecidableEq

/-- How the promise returned by startQueryExecution ends: resolved with the
execution id, rejected with the non-transient error, or still retrying when
the supplied attempt trace runs out. -/
inductive SubmitOutcome where
  | resolved (id : String)
  | rejected (code : String)
  | pending
deriving DecidableEq

/-- startQueryExecution (helpers.js 25-39), driven by the finite trace of
attempt outcomes the engine produces.  Returns the sequence of setTimeout
waits (milliseconds) and the promise outcome: a transient error
(isCommonAthenaError) waits 2000ms and retries, any other error rejects at
once, a success resolves with the id. -/
def startQueryExecution : List SubmitEvent → List Nat × SubmitOutcome
  | [] => ([], SubmitOutcome.pending)
  | SubmitEvent.ok id :: _ => ([], SubmitOutcome.resolved id)
  | SubmitEvent.err code :: rest =>
    if isCommonAthenaError code then
      let next := startQueryExecution rest
      (2000 :: next.1, next.2)
    else ([], SubmitOutcome.rejected code)

/-- One poll tick's outcome, as seen by checkIfExecutionCompleted: the
engine either reports a status (with a StateChangeReason, relevant for
FAILED) or the GetQueryExecution call throws an error with a code. -/
inductive PollEvent where
  | status (state : String) (reason : String)
  | fault (code : String)
deriving DecidableEq

/-- How the promise returned by checkIfExecutionCompleted ends. -/
inductive PollOutcome where
  | succeeded
  | failed (reason : String)
  | faulted (code : String)
  | pending
deriving DecidableEq

/-- The polling loop of checkIfExecutionCompleted (helpers.js 42-75), driven
by the finite trace of poll outcomes.  The second argument is the mutable
local variable retry.  Returns the sequence of setTimeout waits and the
promise outcome.  On SUCCEEDED the source resets retry to config.retry and
resolves (the reset is unobservable because no further poll happens); on
FAILED it rejects with the StateChangeReason; on any other status it waits
the current retry; on a transient fault it sets retry to 2000 and waits; on
any other fault it rejects. -/
def pollRun (configRetry : Nat) : Nat → List PollEvent → List Nat × PollOutcome
  | _, [] => ([], PollOutcome.pending)
  | retry, PollEvent.status st reason :: rest =>
    if st = "SUCCEEDED" then ([], PollOutcome.succeeded)
    else if st = "FAILED" then ([], PollOutcome.failed reason)
    else
      let next := pollRun configRetry retry rest
      (retry :: next.1, next.2)
  | _, PollEvent.fault code :: rest =>
    if isCommonAthenaError code then
      let next := pollRun configRetry 2000 rest
      (2000 :: next.1, next.2)
    else ([], PollOutcome.faulted code)

/-- checkIfExecutionCompleted (helpers.js 42-75): the loop starts with
retry = config.retry. -/
def checkIfExecutionCompleted (configRetry : Nat) (events : List PollEvent) : List Nat × PollOutcome :=
  pollRun configRetry configRetry events

/-- A remote round trip issued by getQueryResultsFromS3: an object-store
read, a GetQueryResults page fetch (the paginated data request), or a
GetQueryResults MaxResults-1 call issued solely to obtain the result-set
metadata (the schema round trip the caching invariant is about). -/
inductive Effect where
  | getObject (bucket key : String)
  | getResultsPage (maxResults : Nat) (tok : Option Nat)
  | metadataFetch
deriving DecidableEq

/-- The per-execution context object: its s3Metadata field is set by the
completion poller on SUCCEEDED (the warmed schema fetch) and read by the
retriever.  The cached response is modelled by its ColumnInfo list
(name, type) in column order. -/
structure QueryContext where
  s3Metadata : Option (List (String × String))

/-- The caller options consumed by getQueryResultsFromS3: pagination is the
requested page size (0 models the falsy absence of pagination). -/
structure RConfig where
  pagination : Nat
  nextToken : Option Nat
  formatJson : Bool
  includeMetadata : Bool

/-- The external world getQueryResultsFromS3 interacts with: the reported
output location, the statement type, the engine's full result set (header
row included) with its column metadata, and the stored result blob (as its
lines, and as the csv parser's record output for the typed path). -/
structure FetchEnv where
  s3Output : String
  statementType : String
  engineRows : List (List (Option String))
  engineMetadata : List (String × String)
  blobLines : List String
  csvRecords : List (List (String × String))

/-- One GetQueryResults page, as served by the engine: the next-token cursor
is the absolute row offset, returned while rows remain. -/
structure ResultPage where
  rows : List (List (Option String))
  nextToken : Option Nat

/-- The engine's GetQueryResults: serve at most maxResults rows starting at
the cursor (absent cursor means the start, where row 0 is the header row),
with a new cursor when rows remain. -/
def engineGetResults (allRows : List (List (Option String))) (maxResults : Nat) (tok : Option Nat) : ResultPage :=
  let start := tok.getD 0
  let page := (allRows.drop start).take maxResults
  { rows := page
    nextToken := if start + page.length < allRows.length then some (start + page.length) else none }

/-- The items of a fetch result: key/value pairs from a non-tabular
statement, typed records, raw engine rows, or raw blob lines. -/
inductive Items where
  | nonDml (l : List (String × String))
  | typed (l : List (List (String × TValue)))
  | rawRows (l : List (List (Option String)))
  | rawLines (l : List String)

/-- A rejection of the getQueryResultsFromS3 promise: a materialization
fault, or the TypeError from awaiting an absent context.s3Metadata. -/
inductive FetchErr where
  | materialize (e : MErr)
  | missingMetadata

/-- The resolved value of getQueryResultsFromS3. -/
structure FetchOut where
  items : Items
  nextToken : Option Nat
  metadata : Option (List (String × String))

/-- The result of the paginated typed branch, given the materialization
outcome of the page. -/
def pagedResult (mat : Except MErr (List (List (String × TValue)))) (tok : Option Nat) (md : List (String × String)) : Except FetchErr FetchOut :=
  match mat with
  | Except.error e => Except.error (FetchErr.materialize e)
  | Except.ok items => Except.ok { items := Items.typed items, nextToken := tok, metadata := some md }

/-- getQueryResultsFromS3 (helpers.js 77-132), returning the trace of remote
round trips it issues together with the promise outcome.
UTILITY/DDL statements read the blob and parse it as non-tabular output;
a truthy pagination requests one engine page of pagination + paginationFactor
rows (paginationFactor is 1 when no cursor is supplied, 0 otherwise) and
either materializes it (formatJson) or returns the rows verbatim; otherwise
the blob is read in full, a schema round trip being issued only when the
poller's cached promise is absent and metadata was requested, and the lines
are either csv-parsed and materialized (formatJson) or returned trimmed. -/
def getQueryResultsFromS3 (env : FetchEnv) (cfg : RConfig) (ctx : QueryContext) : List Effect × Except FetchErr FetchOut :=
  let bk := s3ParamsOf env.s3Output
  if env.statementType = "UTILITY" ∨ env.statementType = "DDL" then
    ([Effect.getObject bk.1 bk.2],
     Except.ok { items := Items.nonDml (cleanUpNonDML env.blobLines), nextToken := none, metadata := none })
  else if cfg.pagination ≠ 0 then
    let paginationFactor := if cfg.nextToken.isSome then 0 else 1
    let qr := engineGetResults env.engineRows (cfg.pagination + paginationFactor) cfg.nextToken
    let effects := [Effect.getResultsPage (cfg.pagination + paginationFactor) cfg.nextToken]
    if cfg.formatJson then
      match ctx.s3Metadata with
      | none => (effects, Except.error FetchErr.missingMetadata)
      | some meta =>
        (effects, pagedResult (cleanUpPaginatedDML qr.rows paginationFactor meta) qr.nextToken env.engineMetadata)
    else
      (effects, Except.ok { items := Items.rawRows qr.rows, nextToken := qr.nextToken, metadata := some env.engineMetadata })
  else
    let mFetch : List Effect × Option (List (String × String)) :=
      match ctx.s3Metadata with
      | some m => ([], some m)
      | none => if cfg.includeMetadata then ([Effect.metadataFetch], some env.engineMetadata) else ([], none)
    let effects := mFetch.1 ++ [Effect.getObject bk.1 bk.2]
    if cfg.formatJson then
      match ctx.s3Metadata with
      | none => (effects, Except.error FetchErr.missingMetadata)
      | some meta =>
        match cleanUpDML env.csvRecords meta with
        | Except.error e => (effects, Except.error (FetchErr.materialize e))
        | Except.ok items =>
          (effects, Except.ok { items := Items.typed items, nextToken := none,
                                metadata := if cfg.includeMetadata then mFetch.2 else none })
    else
      (effects, Except.ok { items := Items.rawLines (getRawResultsFromS3 env.blobLines), nextToken := none,
                            metadata := if cfg.includeMetadata then mFetch.2 else none })

/-! ## Helper lemmas -/

/-- Waits emitted by the polling loop once the retry variable holds 2000 are
all 2000: the variable is only ever written back to 2000 (on a transient
fault) and is reset only on the terminating SUCCEEDED branch. -/
theorem pollRun_sticky_2000 (configRetry : Nat) (events : List PollEvent) :
    ∀ w ∈ (pollRun configRetry 2000 events).1, w = 2000 := by
  induction events with
  | nil => intro w hw; simp [pollRun] at hw
  | cons e rest ih =>
    cases e with
    | status st reason =>
      intro w hw
      by_cases h1 : st = "SUCCEEDED"
      · simp [pollRun, h1] at hw
      · by_cases h2 : st = "FAILED"
        · simp [pollRun, h1, h2] at hw
        · simp [pollRun, h1, h2] at hw
          rcases hw with rfl | hw
          · rfl
          · exact ih w hw
    | fault code =>
      intro w hw
      by_cases h : isCommonAthenaError code
      · simp [pollRun, h] at hw
        rcases hw with rfl | hw
        · rfl
        · exact ih w hw
      · simp [pollRun, h] at hw

/-! ## The claims -/

/-- C2: for the schema a: bigint, b: boolean, c: varchar and the raw row
a: "42", b: "TRUE", c: "", addDataType returns exactly a: the
arbitrary-precision integer 42, b: the boolean true, c: null. -/
theorem C2_materialize_example :
    addDataType [("a", "42"), ("b", "TRUE"), ("c", "")]
        [("a", "bigint"), ("b", "boolean"), ("c", "varchar")]
      = Except.ok [("a", TValue.big 42), ("b", TValue.json (JVal.jbool true)), ("c", TValue.null)] := by
  rfl

/-- C5: when the engine reports status FAILED, the poller rejects at once
with the engine's StateChangeReason verbatim, emitting no further waits and
ignoring the rest of the trace, from any loop state and from the start. -/
theorem C5_failed_rejects_immediately :
    (∀ (configRetry retry : Nat) (reason : String) (rest : List PollEvent),
      pollRun configRetry retry (PollEvent.status "FAILED" reason :: rest)
        = ([], PollOutcome.failed reason)) ∧
    (∀ (configRetry : Nat) (reason : String) (rest : List PollEvent),
      checkIfExecutionCompleted configRetry (PollEvent.status "FAILED" reason :: rest)
        = ([], PollOutcome.failed reason)) := by
  constructor
  · intro configRetry retry reason rest
    rw [pollRun]
    rw [if_neg (by decide), if_pos rfl]
  · intro configRetry reason rest
    rw [checkIfExecutionCompleted, pollRun]
    rw [if_neg (by decide), if_pos rfl]

/-- C6: startQueryExecution classifies exactly the four codes
TooManyRequestsException, ThrottlingException, NetworkingError and
UnknownEndpoint as transient; any finite run of transient faults followed by
a success resolves with the execution id after a fixed 2000ms wait per
retry, and a non-transient fault rejects at once with no further attempt. -/
theorem C6_submit_classification_and_retry :
    (∀ code, isCommonAthenaError code = true ↔
      (code = "TooManyRequestsException" ∨ code = "ThrottlingException" ∨
       code = "NetworkingError" ∨ code = "UnknownEndpoint")) ∧
    (∀ (codes : List String) (id : String) (rest : List SubmitEvent),
      (∀ c ∈ codes, isCommonAthenaError c = true) →
      startQueryExecution (codes.map SubmitEvent.err ++ SubmitEvent.ok id :: rest)
        = (codes.map (fun _ => 2000), SubmitOutcome.resolved id)) ∧
    (∀ (code : String) (rest : List SubmitEvent), isCommonAthenaError code = false →
      startQueryExecution (SubmitEvent.err code :: rest) = ([], SubmitOutcome.rejected code)) := by
  refine ⟨fun code => ?_, fun codes id rest => ?_, fun code rest h => ?_⟩
  · simp [isCommonAthenaError, Bool.or_eq_true, beq_iff_eq, or_assoc]
  · induction codes with
    | nil => intro _; simp [startQueryExecution]
    | cons c cs ih =>
      intro h
      have hc : isCommonAthenaError c = true := h c (by simp)
      have hcs : ∀ x ∈ cs, isCommonAthenaError x = true := fun x hx => h x (by simp [hx])
      simp [startQueryExecution, hc, ih hcs]
  · simp [startQueryExecution, h]

/-- C6 witness: two transient faults then a success resolve with the id
after two 2000ms waits. -/
theorem C6_submit_retry_witness :
    startQueryExecution
        [SubmitEvent.err "ThrottlingException", SubmitEvent.err "NetworkingError",
         SubmitEvent.ok "qid-1"]
      = ([2000, 2000], SubmitOutcome.resolved "qid-1") :=
  C6_submit_classification_and_retry.2.1 ["ThrottlingException", "NetworkingError"] "qid-1" []
    (by decide)

/-- C10: for the six numeric column types, coercion of a non-empty cell
never fails: the cell becomes the Number conversion of the string, which is
NaN (not an exception) when no numeric literal is recognized. -/
theorem C10_numeric_coercion_never_fails :
    (∀ ty : String,
      (ty = "integer" ∨ ty = "tinyint" ∨ ty = "smallint" ∨ ty = "int" ∨
       ty = "float" ∨ ty = "double") →
      ∀ v : String, v ≠ "" →
        addDataType [("k", v)] [("k", ty)]
          = Except.ok [("k", TValue.num (jsNumberOfString v))]) ∧
    (∀ s : String, jsStringToNumberCore s = none → jsNumberOfString s = JSNum.nan) ∧
    jsNumberOfString "abc" = JSNum.nan := by
  refine ⟨?_, ?_, by rfl⟩
  · rintro ty (rfl | rfl | rfl | rfl | rfl | rfl) v hv <;>
      simp [addDataType, coerceValue, List.lookup, hv]
  · intro s h
    simp [jsNumberOfString, h]

/-- C10 witness: a float column with the unparseable non-empty cell "abc"
materializes to NaN without an error. -/
theorem C10_numeric_witness :
    addDataType [("k", "abc")] [("k", "float")]
      = Except.ok [("k", TValue.num (jsNumberOfString "abc"))] :=
  C10_numeric_coercion_never_fails.1 "float" (by decide) "abc" (by decide)

/-- C3 counterexample: the non-empty boolean cell "null" — whose
case-insensitive form is neither "true" nor "false" — does not fail:
JSON.parse accepts it and the record gets the parsed JavaScript null. -/
theorem C3_nonboolean_token_accepted :
    addDataType [("x", "null")] [("x", "boolean")]
      = Except.ok [("x", TValue.json JVal.jnull)] ∧
    exceptIsOk (addDataType [("x", "null")] [("x", "boolean")]) = true := by
  exact ⟨by rfl, by rfl⟩

/-- C3 amended: a boolean cell is lowercased and handed to JSON.parse:
cells that are not valid JSON (such as "maybe") fail with the
materialization fault and no partial typed result is delivered for the
result set; case-insensitive "true"/"false" yield the booleans; any other
valid JSON token is accepted and yields its parsed value. -/
theorem C3_boolean_json_parse_semantics :
    (∀ v : String, v ≠ "" → jsonParse (jsToLower v) = none →
      addDataType [("x", v)] [("x", "boolean")] = Except.error (MErr.malformedJson v)) ∧
    addDataType [("x", "maybe")] [("x", "boolean")]
      = Except.error (MErr.malformedJson "maybe") ∧
    (∀ v : String, jsToLower v = "true" →
      addDataType [("x", v)] [("x", "boolean")]
        = Except.ok [("x", TValue.json (JVal.jbool true))]) ∧
    (∀ v : String, jsToLower v = "false" →
      addDataType [("x", v)] [("x", "boolean")]
        = Except.ok [("x", TValue.json (JVal.jbool false))]) ∧
    (∀ (pre post : List (List (String × String))) (r : List (String × String))
       (dt : List (String × String)) (e : MErr),
      addDataType r dt = Except.error e →
      ∀ l, cleanUpDMLRecords (pre ++ r :: post) dt ≠ Except.ok l) := by
  have htrue : jsonParse "true" = some (JVal.jbool true) := by rfl
  have hfalse : jsonParse "false" = some (JVal.jbool false) := by rfl
  refine ⟨?_, by rfl, ?_, ?_, ?_⟩
  · intro v hv hj
    simp [addDataType, coerceValue, List.lookup, hv, hj]
  · intro v hv
    have hne : v ≠ "" := fun h => by rw [h] at hv; exact absurd hv (by decide)
    simp [addDataType, coerceValue, List.lookup, hne, hv, htrue]
  · intro v hv
    have hne : v ≠ "" := fun h => by rw [h] at hv; exact absurd hv (by decide)
    simp [addDataType, coerceValue, List.lookup, hne, hv, hfalse]
  · intro pre post r dt e he
    induction pre with
    | nil =>
      intro l
      simp [cleanUpDMLRecords, he]
    | cons p ps ih =>
      intro l
      cases hp : addDataType p dt with
      | error e2 => simp [cleanUpDMLRecords, hp]
      | ok r0 =>
        cases hrec : cleanUpDMLRecords (ps ++ r :: post) dt with
        | error e2 => simp [cleanUpDMLRecords, hp, hrec]
        | ok ls => exact absurd hrec (ih ls)

/-- C3 witness: the invalid JSON token "maybe" in a boolean column fails
with the materialization fault. -/
theorem C3_boolean_json_parse_witness :
    addDataType [("x", "maybe")] [("x", "boolean")]
      = Except.error (MErr.malformedJson "maybe") :=
  C3_boolean_json_parse_semantics.1 "maybe" (by decide) (by rfl)

/-- C4 counterexample: with a configured interval of 500ms, a transient
fault followed by two RUNNING statuses and a SUCCEEDED produces waits
[2000, 2000, 2000]: the non-terminal polls after the real RUNNING status is
observed still wait 2000ms, not the caller-configured 500ms the claim
predicts. -/
theorem C4_interval_not_restored_counterexample :
    checkIfExecutionCompleted 500
        [PollEvent.fault "ThrottlingException", PollEvent.status "RUNNING" "",
         PollEvent.status "RUNNING" "", PollEvent.status "SUCCEEDED" ""]
      = ([2000, 2000, 2000], PollOutcome.succeeded) ∧
    ([2000, 2000, 2000] : List Nat) ≠ [2000, 2000, 500] ∧
    ([2000, 2000, 2000] : List Nat) ≠ [2000, 500, 500] := by
  decide

/-- C4 amended: after a transient fault while polling, this and every
subsequent wait until termination is 2000ms; observing a real non-terminal
status does not restore the caller-configured interval (the reset to the
configured interval happens only in the SUCCEEDED branch, which resolves
without polling again). -/
theorem C4_backoff_sticky_after_transient_fault (configRetry retry : Nat) (code : String)
    (rest : List PollEvent) (h : isCommonAthenaError code = true) :
    (pollRun configRetry retry (PollEvent.fault code :: rest)).1
      = List.replicate (pollRun configRetry retry (PollEvent.fault code :: rest)).1.length 2000 := by
  refine List.eq_replicate_iff.mpr ⟨rfl, ?_⟩
  intro b hb
  rw [pollRun, if_pos h] at hb
  simp only [List.mem_cons] at hb
  rcases hb with rfl | hb
  · rfl
  · exact pollRun_sticky_2000 configRetry rest b hb

/-- C4 witness: a concrete transient fault makes every wait of the
remaining run equal to 2000ms, with the configured interval at 500ms. -/
theorem C4_backoff_sticky_witness :
    (pollRun 500 500
        [PollEvent.fault "ThrottlingException", PollEvent.status "RUNNING" "",
         PollEvent.status "SUCCEEDED" ""]).1
      = List.replicate (pollRun 500 500
          [PollEvent.fault "ThrottlingException", PollEvent.status "RUNNING" "",
           PollEvent.status "SUCCEEDED" ""]).1.length 2000 :=
  C4_backoff_sticky_after_transient_fault 500 500 "ThrottlingException"
    [PollEvent.status "RUNNING" "", PollEvent.status "SUCCEEDED" ""] (by decide)

/-- C7 counterexample: for the output location s3://my-bucket/a/b.csv the
code's bucket is the third slash-separated segment, my-bucket, and its key
is a/b.csv; the spec's "first two segments form the bucket, remainder the
key" gives s3:/ and my-bucket/a/b.csv instead. -/
theorem C7_first_two_segments_counterexample :
    s3ParamsOf "s3://my-bucket/a/b.csv" = ("my-bucket", "a/b.csv") ∧
    s3ParamsClaim "s3://my-bucket/a/b.csv" = ("s3:/", "my-bucket/a/b.csv") ∧
    s3ParamsOf "s3://my-bucket/a/b.csv" ≠ s3ParamsClaim "s3://my-bucket/a/b.csv" := by
  exact ⟨by rfl, by rfl, by decide⟩

/-- C7 amended: splitting the output location on the path separator, the
bucket is the third segment (the one after the two produced by the
s3:// scheme) and the key joins the segments from the fourth on. -/
theorem C7_bucket_is_third_segment (s b : String) (ks : List String)
    (h : jsSplit '/' s = "s3:" :: "" :: b :: ks) :
    s3ParamsOf s = (b, joinWith "/" ks) := by
  simp [s3ParamsOf, h, List.getD]

/-- C7 witness: the derivation at a concrete well-formed output location. -/
theorem C7_bucket_witness :
    s3ParamsOf "s3://my-bucket/a/b.csv" = ("my-bucket", joinWith "/" ["a", "b.csv"]) :=
  C7_bucket_is_third_segment "s3://my-bucket/a/b.csv" "my-bucket" ["a", "b.csv"] (by rfl)

/-- addDataType preserves the input's keys in order, and sends a looked-up
empty value to null and an absent key to an absent key. -/
theorem addDataType_lookup (input : List (String × String)) :
    ∀ (dt : List (String × String)) (out : List (String × TValue)) (k : String),
      addDataType input dt = Except.ok out →
      (input.lookup k = some "" → out.lookup k = some TValue.null) ∧
      (input.lookup k = none → out.lookup k = none) := by
  induction input with
  | nil =>
    intro dt out k h
    simp only [addDataType] at h
    injection h with h
    subst h
    simp [List.lookup]
  | cons kv rest ih =>
    intro dt out k h
    obtain ⟨k1, v⟩ := kv
    cases hstep : (if v = "" then Except.ok TValue.null else coerceValue (dt.lookup k1) v) with
    | error e => simp [addDataType, hstep] at h
    | ok tv =>
      cases hrest : addDataType rest dt with
      | error e => simp [addDataType, hstep, hrest] at h
      | ok restOut =>
        simp only [addDataType, hstep, hrest, Except.ok.injEq] at h
        subst h
        by_cases hk : k = k1
        · subst hk
          constructor
          · intro hl
            rw [List.lookup_cons_self] at hl
            injection hl with hl
            rw [hl, if_pos rfl] at hstep
            injection hstep with hstep
            rw [List.lookup_cons_self, hstep]
          · intro hl
            rw [List.lookup_cons_self] at hl
            exact Option.noConfusion hl
        · have hbeq : (k == k1) = false := beq_eq_false_iff_ne.mpr hk
          constructor
          · intro hl
            rw [List.lookup_cons, hbeq] at hl
            rw [List.lookup_cons, hbeq]
            exact (ih dt restOut k hrest).1 hl
          · intro hl
            rw [List.lookup_cons, hbeq] at hl
            rw [List.lookup_cons, hbeq]
            exact (ih dt restOut k hrest).2 hl

/-- C8 counterexample: a structured row whose only cell has no VarCharValue
materializes to a record with no binding at all for the declared column
(the column is omitted), not to a record binding it to null. -/
theorem C8_absent_cell_column_omitted :
    cleanUpPaginatedDML [[Option.none]] 0 [("a", "varchar")] = Except.ok [[]] ∧
    (Except.ok [[]] : Except MErr (List (List (String × TValue)))) ≠
      Except.ok [[("a", TValue.null)]] := by
  refine ⟨by rfl, ?_⟩
  intro h
  simp at h

/-- C8 amended: a declared column whose raw value is present but empty is
bound to null in the typed record; a column whose raw value is absent is
omitted from the record (its key is absent in the output exactly when it is
absent in the input row object, and structured cells without VarCharValue
never reach the row object). -/
theorem C8_empty_null_absent_omitted :
    (∀ (input dt : List (String × String)) (out : List (String × TValue)) (k : String),
      addDataType input dt = Except.ok out →
      (input.lookup k = some "" → out.lookup k = some TValue.null) ∧
      (input.lookup k = none → out.lookup k = none)) ∧
    cleanUpPaginatedDML [[some "v", Option.none]] 0 [("a", "varchar"), ("b", "varchar")]
      = Except.ok [[("a", TValue.str "v")]] := by
  exact ⟨fun input dt out k h => addDataType_lookup input dt out k h, by rfl⟩

/-- C8 witness: for a row binding column c to the empty string, the typed
record binds c to null. -/
theorem C8_empty_to_null_witness :
    ([("c", TValue.null)] : List (String × TValue)).lookup "c" = some TValue.null :=
  (C8_empty_null_absent_omitted.1 [("c", "")] [("c", "varchar")] [("c", TValue.null)] "c"
    (by rfl)).1 (by rfl)

/-- C9: when the execution's metadata fetch was already warmed by the
completion poller (context.s3Metadata cached), no retrieval path issues a
metadata round trip: the cached schema is reused. -/
theorem C9_cached_schema_not_refetched (env : FetchEnv) (cfg : RConfig) (ctx : QueryContext)
    (m : List (String × String)) (h : ctx.s3Metadata = some m) :
    Effect.metadataFetch ∉ (getQueryResultsFromS3 env cfg ctx).1 := by
  unfold getQueryResultsFromS3
  rw [h]
  by_cases h1 : env.statementType = "UTILITY" ∨ env.statementType = "DDL"
  · simp [h1]
  · by_cases h2 : cfg.pagination = 0
    · by_cases h3 : cfg.formatJson
      · cases hc : cleanUpDML env.csvRecords m <;> simp [h1, h2, h3, hc]
      · simp [h1, h2, h3]
    · by_cases h3 : cfg.formatJson
      · simp [h1, h2, h3]
      · simp [h1, h2, h3]

/-- C9 witness: a concrete warmed retrieval issues no metadata fetch. -/
theorem C9_cached_schema_witness :
    Effect.metadataFetch ∉ (getQueryResultsFromS3
        ⟨"s3://b/k", "DML", [], [("a", "varchar")], [], []⟩
        ⟨0, none, false, true⟩ ⟨some [("a", "varchar")]⟩).1 :=
  C9_cached_schema_not_refetched
    ⟨"s3://b/k", "DML", [], [("a", "varchar")], [], []⟩
    ⟨0, none, false, true⟩ ⟨some [("a", "varchar")]⟩ [("a", "varchar")] (by rfl)

/-- First page: with no cursor, requesting P + 1 rows of a result set whose
row 0 is the header returns the header and the first P data rows, with the
cursor placed after them. -/
theorem engineGetResults_first (header : List (Option String))
    (rows : List (List (Option String))) (P : Nat) (h : P < rows.length) :
    engineGetResults (header :: rows) (P + 1) none =
      { rows := header :: rows.take P, nextToken := some (P + 1) } := by
  unfold engineGetResults
  simp [List.length_take, Nat.min_eq_left (Nat.le_of_lt h)]
  omega

/-- Subsequent page: with the cursor after the first page, requesting P rows
returns the next P data rows, with the cursor moved past them. -/
theorem engineGetResults_second (header : List (Option String))
    (rows : List (List (Option String))) (P : Nat) (h : 2 * P < rows.length) :
    engineGetResults (header :: rows) P (some (P + 1)) =
      { rows := (rows.drop P).take P, nextToken := some (P + 1 + P) } := by
  unfold engineGetResults
  simp [List.length_take, List.length_drop, Nat.min_eq_left (by omega : P ≤ rows.length - P)]
  omega

/-- Skipping one leading row before materialization is the same as
materializing the tail. -/
theorem cleanUpPaginatedDML_one_cons (r : List (Option String))
    (rows : List (List (Option String))) (ci : List (String × String)) :
    cleanUpPaginatedDML (r :: rows) 1 ci = cleanUpPaginatedDML rows 0 ci := by
  simp [cleanUpPaginatedDML]

/-- Successful materialization yields one record per row. -/
theorem cleanUpPaginatedRows_length :
    ∀ (rows : List (List (Option String))) (names : List String)
      (dt : List (String × String)) (l : List (List (String × TValue))),
      cleanUpPaginatedRows rows names dt = Except.ok l → l.length = rows.length := by
  intro rows
  induction rows with
  | nil =>
    intro names dt l h
    simp only [cleanUpPaginatedRows, Except.ok.injEq] at h
    simp [← h]
  | cons r rest ih =>
    intro names dt l h
    cases hrow : addDataType (buildRowObject names r) dt with
    | error e => simp [cleanUpPaginatedRows, hrow] at h
    | ok r0 =>
      cases hrest : cleanUpPaginatedRows rest names dt with
      | error e => simp [cleanUpPaginatedRows, hrow, hrest] at h
      | ok rs =>
        simp only [cleanUpPaginatedRows, hrow, hrest, Except.ok.injEq] at h
        subst h
        simp [ih names dt rs hrest]


/-- C1: paginated typed retrieval over an engine result set consisting of a
header row followed by the data rows.  With no cursor the retriever requests
P + 1 rows and materializes only the P data rows after the header, handing
back the engine's cursor; with the cursor supplied it requests exactly P
rows and materializes them all, so consecutive pages cover dataRows.take P
and then (dataRows.drop P).take P — adjacent, non-overlapping windows whose
concatenation is dataRows.take (2 * P) — each yielding exactly P typed
records on success. -/
theorem C1_paginated_typed_pages (s3out : String) (md : List (String × String))
    (blob : List String) (csvr : List (List (String × String)))
    (header : List (Option String)) (dataRows : List (List (Option String)))
    (meta : List (String × String)) (P : Nat)
    (hP : 0 < P) (hlen : 2 * P < dataRows.length) :
    getQueryResultsFromS3 ⟨s3out, "DML", header :: dataRows, md, blob, csvr⟩
        ⟨P, none, true, false⟩ ⟨some meta⟩
      = ([Effect.getResultsPage (P + 1) none],
         pagedResult (cleanUpPaginatedDML (dataRows.take P) 0 meta) (some (P + 1)) md) ∧
    getQueryResultsFromS3 ⟨s3out, "DML", header :: dataRows, md, blob, csvr⟩
        ⟨P, some (P + 1), true, false⟩ ⟨some meta⟩
      = ([Effect.getResultsPage P (some (P + 1))],
         pagedResult (cleanUpPaginatedDML ((dataRows.drop P).take P) 0 meta) (some (P + 1 + P)) md) ∧
    (∀ l, cleanUpPaginatedDML (dataRows.take P) 0 meta = Except.ok l → l.length = P) ∧
    (∀ l, cleanUpPaginatedDML ((dataRows.drop P).take P) 0 meta = Except.ok l → l.length = P) ∧
    dataRows.take P ++ (dataRows.drop P).take P = dataRows.take (2 * P) := by
  have hPlt : P < dataRows.length := by omega
  refine ⟨?_, ?_, ?_, ?_, ?_⟩
  · unfold getQueryResultsFromS3
    dsimp only
    rw [if_neg (by decide), if_pos (by omega : (P : Nat) ≠ 0), if_pos rfl]
    simp only [Option.isSome_none, Bool.false_eq_true, if_false,
      engineGetResults_first header dataRows P hPlt, cleanUpPaginatedDML_one_cons]
  · unfold getQueryResultsFromS3
    dsimp only
    rw [if_neg (by decide), if_pos (by omega : (P : Nat) ≠ 0), if_pos rfl]
    simp only [Option.isSome_some, if_true, Nat.add_zero,
      engineGetResults_second header dataRows P hlen]
  · intro l h
    rw [cleanUpPaginatedDML] at h
    simp only [List.drop_zero] at h
    have := cleanUpPaginatedRows_length _ _ _ _ h
    rw [this, List.length_take, Nat.min_eq_left (Nat.le_of_lt hPlt)]
  · intro l h
    rw [cleanUpPaginatedDML] at h
    simp only [List.drop_zero] at h
    have := cleanUpPaginatedRows_length _ _ _ _ h
    rw [this, List.length_take, List.length_drop,
      Nat.min_eq_left (by omega : P ≤ dataRows.length - P)]
  · rw [two_mul, List.take_add]

/-- C1 witness: page size 2 over five data rows (plus the header row). -/
theorem C1_paginated_typed_witness :
    getQueryResultsFromS3
        ⟨"s3://b/k", "DML",
         [some "a"] :: [[some "1"], [some "2"], [some "3"], [some "4"], [some "5"]],
         [("a", "varchar")], [], []⟩
        ⟨2, none, true, false⟩ ⟨some [("a", "varchar")]⟩
      = ([Effect.getResultsPage (2 + 1) none],
         pagedResult
           (cleanUpPaginatedDML
             ([[some "1"], [some "2"], [some "3"], [some "4"], [some "5"]].take 2)
             0 [("a", "varchar")])
           (some (2 + 1)) [("a", "varchar")]) ∧
    getQueryResultsFromS3
        ⟨"s3://b/k", "DML",
         [some "a"] :: [[some "1"], [some "2"], [some "3"], [some "4"], [some "5"]],
         [("a", "varchar")], [], []⟩
        ⟨2, some (2 + 1), true, false⟩ ⟨some [("a", "varchar")]⟩
      = ([Effect.getResultsPage 2 (some (2 + 1))],
         pagedResult
           (cleanUpPaginatedDML
             (([[some "1"], [some "2"], [some "3"], [some "4"], [some "5"]].drop 2).take 2)
             0 [("a", "varchar")])
           (some (2 + 1 + 2)) [("a", "varchar")]) :=
  ⟨(C1_paginated_typed_pages "s3://b/k" [("a", "varchar")] [] [] [some "a"]
      [[some "1"], [some "2"], [some "3"], [some "4"], [some "5"]] [("a", "varchar")] 2
      (by decide) (by decide)).1,
   (C1_paginated_typed_pages "s3://b/k" [("a", "varchar")] [] [] [some "a"]
      [[some "1"], [some "2"], [some "3"], [some "4"], [some "5"]] [("a", "varchar")] 2
      (by decide) (by decide)).2.1⟩
